import Mathlib

/-!
Shallow embedding of the version-upgrade migration pipeline of the
Dify-on-AWS deployment: the `DifyMigrationConstruct` (gate
`shouldRunMigration`, shared PVC, status ConfigMap, and the four-stage
job chain) from lib/S3/s3-stack.ts, the standalone
`DatabaseMigrationConstruct` from lib/database/db-migration-construct.ts,
and the configuration records they read (`DifyConfig.migration`,
`DifyConfig.dbMigration` from src/config).

Only the configuration fields that these constructs read are embedded;
the remaining provisioning blocks of `SystemConfig` (network, cluster,
s3, postgresSQL, redis, openSearch, domain) are opaque to the pipeline
and are omitted.
-/

/-- JavaScript truthiness of a possibly-undefined string: `undefined` and
the empty string are falsy, every other string is truthy. -/
def jsTruthyStr : Option String → Bool
  | none => false
  | some s => !(s == "")

/-- JavaScript `a || b` for a possibly-undefined string `a` with default
`b` (used for `versionParts[2] || '0'`, `fromVersion || 'unknown'`,
`marketplaceUrl || '...'`). -/
def jsOrStr (a : Option String) (b : String) : String :=
  match a with
  | none => b
  | some s => if s == "" then b else s

/-- JavaScript `a || b` for a possibly-undefined number `a` with default
`b`; 0 is falsy in JavaScript, so `some 0` also yields the default. -/
def jsOrNat (a : Option Nat) (b : Nat) : Nat :=
  match a with
  | none => b
  | some n => if n == 0 then b else n

/-- Leading run of decimal digits of a character list, if non-empty
(the digit scan done by JavaScript `parseInt`). -/
def parseDigits (cs : List Char) : Option Nat :=
  let ds := cs.takeWhile Char.isDigit
  if ds.isEmpty then none
  else some (ds.foldl (fun acc c => acc * 10 + (c.toNat - Char.toNat '0')) 0)

/-- JavaScript `parseInt(x)` on a possibly-undefined string, in its
base-10 behaviour: skip leading whitespace, read an optional sign and a
leading digit run; `none` models `NaN` (`parseInt(undefined)` and
`parseInt('')` are `NaN`). The gate only binds these values and never
uses them, so `NaN` stays a value, not an error. -/
def parseIntJS : Option String → Option Int
  | none => none
  | some s =>
    let cs := s.data.dropWhile Char.isWhitespace
    match cs with
    | '-' :: rest => (parseDigits rest).map (fun n => -(n : Int))
    | '+' :: rest => (parseDigits rest).map (fun n => (n : Int))
    | _ => (parseDigits cs).map (fun n => (n : Int))

/-- `DifyConfig.migration.workers` (src/config): per-stage parallelism. -/
structure MigrationWorkers where
  extract : Option Nat
  install : Option Nat
deriving DecidableEq

/-- `DifyConfig.migration` (src/config): the migration request block; every
field is optional in the TypeScript interface. -/
structure MigrationConfig where
  enabled : Option Bool
  autoDetect : Option Bool
  fromVersion : Option String
  backupEnabled : Option Bool
  workers : Option MigrationWorkers
  skipPluginMigration : Option Bool
  marketplaceUrl : Option String
deriving DecidableEq

/-- `DifyConfig.dbMigration` (src/config). -/
structure DbMigrationConfig where
  enabled : Option Bool
deriving DecidableEq

/-- `DifyConfig` (src/config), restricted to the fields the migration
constructs read. -/
structure DifyConfig where
  version : Option String
  migration : Option MigrationConfig
  dbMigration : Option DbMigrationConfig
deriving DecidableEq

/-- `SystemConfig` (src/config), restricted to the fields the migration
constructs read. -/
structure SystemConfig where
  isChinaRegion : Option Bool
  dify : DifyConfig
deriving DecidableEq

/-- `DifyMigrationProps` (lib/S3/s3-stack.ts). `nsName` is the `namespace`
prop of the source (a reserved word here); the `cluster` handle is not
embedded (it only routes the manifests to the EKS cluster). -/
structure DifyMigrationProps where
  config : SystemConfig
  nsName : String
  dbEndpoint : String
  dbPort : String
  dbUsername : String
  dbName : String
  dbSecretName : String
  imageRegistry : String
  difyVersion : String
  serviceAccountName : String
deriving DecidableEq

/-- The Version Gate: `DifyMigrationConstruct.shouldRunMigration`
(lib/S3/s3-stack.ts lines 109-149). `migrationConfig?.enabled` falsy
returns false; the version string is split on `.` and the parts passed
through `parseInt` (values bound but unused beyond logging); a truthy
`fromVersion` with falsy `skipPluginMigration` returns true; everything
else returns false. -/
def shouldRunMigration (props : DifyMigrationProps) : Bool :=
  let migrationConfig := props.config.dify.migration
  if !((migrationConfig.bind MigrationConfig.enabled).getD false) then
    false
  else
    let currentVersion := props.difyVersion
    let versionParts := currentVersion.splitOn "."
    let major := parseIntJS versionParts[0]?
    let minor := parseIntJS versionParts[1]?
    let patch := parseIntJS (some (jsOrStr versionParts[2]? "0"))
    if jsTruthyStr (migrationConfig.bind MigrationConfig.fromVersion) then
      if (migrationConfig.bind MigrationConfig.skipPluginMigration).getD false then
        false
      else
        true
    else
      false

/-- Projection used to state what the gate observes: `migration?.enabled`. -/
def migEnabled (props : DifyMigrationProps) : Option Bool :=
  props.config.dify.migration.bind MigrationConfig.enabled

/-- Projection used to state what the gate observes: `migration?.fromVersion`. -/
def migFromVersion (props : DifyMigrationProps) : Option String :=
  props.config.dify.migration.bind MigrationConfig.fromVersion

/-- Projection used to state what the gate observes: `migration?.skipPluginMigration`. -/
def migSkip (props : DifyMigrationProps) : Option Bool :=
  props.config.dify.migration.bind MigrationConfig.skipPluginMigration

/-- The wait-for-marker init container of a stage: the file it polls for
and the sleep between polls (`while [ ! -f file ]; do sleep n; done`). -/
structure InitWait where
  file : String
  sleepSeconds : Nat
deriving DecidableEq

/-- Where a stage's body writes: a file in the shared `/migration` volume,
or a field of the status ConfigMap. The four bodies of the source only
ever write store files; the second constructor is the action the spec
says never happens, so that absence is a provable statement. -/
inductive WriteTarget where
  | storeFile : String → WriteTarget
  | statusRecordField : String → WriteTarget
deriving DecidableEq

/-- A Kubernetes Job manifest of this pipeline, restricted to the fields
the claims are about: CDK construct id, generated name, `step` label,
container image, optional wait-for-marker init container, the shared-store
files the body writes, the `--workers` flag and marketplace URL where the
body passes them, `backoffLimit`, optional `activeDeadlineSeconds`,
`ttlSecondsAfterFinished`, and the construct ids this job's node depends
on (`job.node.addDependency`). -/
structure JobSpec where
  constructId : String
  name : String
  step : String
  image : String
  initWait : Option InitWait
  bodyWrites : List WriteTarget
  workersFlag : Option Nat
  marketplaceUrl : Option String
  backoffLimit : Nat
  activeDeadlineSeconds : Option Nat
  ttlSecondsAfterFinished : Nat
  dependsOn : List String
deriving DecidableEq

/-- `createExtractPluginsJob` (lib/S3/s3-stack.ts lines 194-283): no init
container; the body runs `flask extract-plugins
--workers=${migration?.workers?.extract || 20}` and copies the manifest
to `/migration/plugins.jsonl`; depends on the PVC and the ConfigMap. -/
def createExtractPluginsJob (props : DifyMigrationProps) (now : Nat) : JobSpec :=
  { constructId := "extract-plugins-job"
    name := "dify-extract-plugins-" ++ toString now
    step := "extract-plugins"
    image := props.imageRegistry ++ "langgenius/dify-api:" ++ props.difyVersion
    initWait := none
    bodyWrites := [WriteTarget.storeFile "/migration/plugins.jsonl"]
    workersFlag := some (jsOrNat
      (props.config.dify.migration.bind fun m => m.workers.bind MigrationWorkers.extract) 20)
    marketplaceUrl := none
    backoffLimit := 3
    activeDeadlineSeconds := none
    ttlSecondsAfterFinished := 3600
    dependsOn := ["migration-pvc", "migration-configmap"] }

/-- `createInstallPluginsJob` (lib/S3/s3-stack.ts lines 285-395): init
container polls for `/migration/plugins.jsonl` every 5 seconds; the body
runs `flask install-plugins --workers=${migration?.workers?.install || 2}`
against `${migration?.marketplaceUrl || 'https://marketplace.dify.ai'}`
and touches `/migration/install-complete`; depends on the extract job. -/
def createInstallPluginsJob (props : DifyMigrationProps) (now : Nat) : JobSpec :=
  { constructId := "install-plugins-job"
    name := "dify-install-plugins-" ++ toString now
    step := "install-plugins"
    image := props.imageRegistry ++ "langgenius/dify-api:" ++ props.difyVersion
    initWait := some { file := "/migration/plugins.jsonl", sleepSeconds := 5 }
    bodyWrites := [WriteTarget.storeFile "/migration/install-complete"]
    workersFlag := some (jsOrNat
      (props.config.dify.migration.bind fun m => m.workers.bind MigrationWorkers.install) 2)
    marketplaceUrl := some (jsOrStr
      (props.config.dify.migration.bind MigrationConfig.marketplaceUrl)
      "https://marketplace.dify.ai")
    backoffLimit := 3
    activeDeadlineSeconds := none
    ttlSecondsAfterFinished := 3600
    dependsOn := ["extract-plugins-job"] }

/-- `createDbUpgradeJob` (lib/S3/s3-stack.ts lines 397-500): init container
polls for `/migration/install-complete` every 5 seconds; the body runs
`flask db upgrade` and touches `/migration/db-upgrade-complete`; depends
on the install job. Its job spec sets `backoffLimit` and
`ttlSecondsAfterFinished` only — no `activeDeadlineSeconds`. -/
def createDbUpgradeJob (props : DifyMigrationProps) (now : Nat) : JobSpec :=
  { constructId := "db-upgrade-job"
    name := "dify-db-upgrade-" ++ toString now
    step := "db-upgrade"
    image := props.imageRegistry ++ "langgenius/dify-api:" ++ props.difyVersion
    initWait := some { file := "/migration/install-complete", sleepSeconds := 5 }
    bodyWrites := [WriteTarget.storeFile "/migration/db-upgrade-complete"]
    workersFlag := none
    marketplaceUrl := none
    backoffLimit := 3
    activeDeadlineSeconds := none
    ttlSecondsAfterFinished := 3600
    dependsOn := ["install-plugins-job"] }

/-- `createDataMigrationJob` (lib/S3/s3-stack.ts lines 502-609): init
container polls for `/migration/db-upgrade-complete` every 5 seconds; the
body runs `flask migrate-data-for-plugin`, touches
`/migration/migration-complete`, and echoes its completion note into
`/migration/status.txt` (a shared-store file — the source comment calls
the ConfigMap update a simulation); depends on the db-upgrade job. -/
def createDataMigrationJob (props : DifyMigrationProps) (now : Nat) : JobSpec :=
  { constructId := "data-migration-job"
    name := "dify-data-migration-" ++ toString now
    step := "data-migration"
    image := props.imageRegistry ++ "langgenius/dify-api:" ++ props.difyVersion
    initWait := some { file := "/migration/db-upgrade-complete", sleepSeconds := 5 }
    bodyWrites := [WriteTarget.storeFile "/migration/migration-complete",
                   WriteTarget.storeFile "/migration/status.txt"]
    workersFlag := none
    marketplaceUrl := none
    backoffLimit := 3
    activeDeadlineSeconds := none
    ttlSecondsAfterFinished := 3600
    dependsOn := ["db-upgrade-job"] }

/-- `createMigrationPvc` (lib/S3/s3-stack.ts lines 151-172). -/
structure PvcSpec where
  name : String
  accessModes : List String
  storage : String
  storageClassName : String
deriving DecidableEq

/-- The shared artifact store claim: 5Gi, ReadWriteOnce, gp3. -/
def createMigrationPvc : PvcSpec :=
  { name := "dify-migration-pvc"
    accessModes := ["ReadWriteOnce"]
    storage := "5Gi"
    storageClassName := "gp3" }

/-- The data of the `dify-migration-status` ConfigMap
(`createMigrationConfigMap`, lib/S3/s3-stack.ts lines 174-192). -/
structure ConfigMapData where
  status : String
  fromVersion : String
  toVersion : String
  timestamp : String
deriving DecidableEq

/-- `createMigrationConfigMap`: status starts as `pending`; `fromVersion`
falls back to `unknown`; `timestamp` is the instantiation time. -/
def createMigrationConfigMap (props : DifyMigrationProps) (nowIso : String) : ConfigMapData :=
  { status := "pending"
    fromVersion := jsOrStr (props.config.dify.migration.bind MigrationConfig.fromVersion) "unknown"
    toVersion := props.difyVersion
    timestamp := nowIso }

/-- Everything a `DifyMigrationConstruct` instantiation provisions. -/
structure PipelineResources where
  pvc : Option PvcSpec
  statusRecord : Option ConfigMapData
  jobs : List JobSpec
deriving DecidableEq

/-- The `DifyMigrationConstruct` constructor (lib/S3/s3-stack.ts lines
86-107): if the gate declines, it returns before provisioning anything;
otherwise it creates the PVC, the status ConfigMap, and the four jobs in
order extract, install, db-upgrade, data-migration. `now` stands for the
`Date.now()` job-name suffix, `nowIso` for the ConfigMap timestamp. -/
def difyMigrationConstruct (props : DifyMigrationProps) (now : Nat) (nowIso : String) :
    PipelineResources :=
  if !(shouldRunMigration props) then
    { pvc := none, statusRecord := none, jobs := [] }
  else
    { pvc := some createMigrationPvc
      statusRecord := some (createMigrationConfigMap props nowIso)
      jobs := [createExtractPluginsJob props now,
               createInstallPluginsJob props now,
               createDbUpgradeJob props now,
               createDataMigrationJob props now] }

/-- The entry-procedure poll loop of stages 2-4
(`while [ ! -f marker ]; do sleep interval; done`): `present t` says the
marker exists at time `t`; the loop checks at `t0`, `t0+interval`, ... and
returns the first poll time at which the marker is present. `fuel` bounds
how many polls we unfold — the script itself has no bound, which is the
content of the loops-forever theorem below. -/
def pollLoop (present : Nat → Bool) (interval : Nat) : Nat → Nat → Option Nat
  | 0, _ => none
  | fuel + 1, t => if present t then some t else pollLoop present interval fuel (t + interval)

/-- Modelled from the spec: the batch execution substrate's bounded
automatic restart is not code of this repository (the jobs only declare
`backoffLimit`); per the spec a Stage's body is re-run on non-zero exit
until it succeeds or the retry limit is exhausted. `body n` is the success
of attempt `n`; returns (attempts made, final success). -/
def runWithRetryAux (body : Nat → Bool) : Nat → Nat → Nat × Bool
  | 0, made => (made, false)
  | fuel + 1, made => if body made then (made + 1, true) else runWithRetryAux body fuel (made + 1)

/-- Modelled from the spec: running a stage body under a retry limit;
at most `retryLimit + 1` attempts are made in total. -/
def runWithRetry (body : Nat → Bool) (retryLimit : Nat) : Nat × Bool :=
  runWithRetryAux body (retryLimit + 1) 0

/-- GCR registry constant of lib/database/db-migration-construct.ts. -/
def gcrRegistry : String :=
  "048912060910.dkr.ecr.cn-northwest-1.amazonaws.com.cn/dockerhub/"

/-- The `database` prop of `DatabaseMigrationProps`
(lib/database/db-migration-construct.ts). -/
structure DatabaseConn where
  endpoint : String
  port : String
  username : String
  secretName : String
  dbName : String
deriving DecidableEq

/-- `DatabaseMigrationProps` (lib/database/db-migration-construct.ts),
with the same conventions as `DifyMigrationProps`. -/
structure DatabaseMigrationProps where
  config : SystemConfig
  nsName : String
  database : DatabaseConn
  serviceAccountName : String
  difyVersion : String
  imageRegistry : String
deriving DecidableEq

/-- The standalone migration job of `DatabaseMigrationConstruct`
(lib/database/db-migration-construct.ts lines 33-123): runs
`flask db upgrade` only, with `backoffLimit: 3`,
`activeDeadlineSeconds: 600`, `ttlSecondsAfterFinished: 86400`. Its init
container waits for database readiness (`pg_isready` poll), not for a
shared-store marker, and its body writes no store file (there is no
shared volume); it is not one of the four chain stages. -/
def databaseMigrationJob (props : DatabaseMigrationProps) (now : Nat) : JobSpec :=
  let imageRegistry := if props.config.isChinaRegion.getD false then gcrRegistry else ""
  { constructId := "migration-job"
    name := "dify-db-migration-" ++ toString now
    step := "db-migration"
    image := imageRegistry ++ "langgenius/dify-api:" ++ props.difyVersion
    initWait := none
    bodyWrites := []
    workersFlag := none
    marketplaceUrl := none
    backoffLimit := 3
    activeDeadlineSeconds := some 600
    ttlSecondsAfterFinished := 86400
    dependsOn := [] }

/-- The `DatabaseMigrationConstruct` constructor: returns without creating
anything unless `config.dify?.dbMigration?.enabled !== true`. -/
def databaseMigrationConstruct (props : DatabaseMigrationProps) (now : Nat) : Option JobSpec :=
  if (props.config.dify.dbMigration.bind DbMigrationConfig.enabled) ≠ some true then
    none
  else
    some (databaseMigrationJob props now)

/-- A migration block with every field populated, used by concrete
witnesses. -/
def sampleMigrationConfig : MigrationConfig :=
  { enabled := some true
    autoDetect := some false
    fromVersion := some "1.0.0"
    backupEnabled := some false
    workers := some { extract := some 20, install := some 2 }
    skipPluginMigration := some false
    marketplaceUrl := some "https://marketplace.dify.ai" }

/-- Concrete props builder for witnesses: a fixed deployment environment
around a chosen migration block and target version. -/
def mkProps (mc : Option MigrationConfig) (v : String) : DifyMigrationProps :=
  { config := { isChinaRegion := some false
                dify := { version := some v, migration := mc, dbMigration := none } }
    nsName := "dify"
    dbEndpoint := "db.example.internal"
    dbPort := "5432"
    dbUsername := "postgres"
    dbName := "dify"
    dbSecretName := "dify-db-secret"
    imageRegistry := ""
    difyVersion := v
    serviceAccountName := "dify-sa" }

/-- Concrete props with the fully-populated migration block. -/
def sampleProps : DifyMigrationProps :=
  mkProps (some sampleMigrationConfig) "1.4.2"

/-- Migration block with auto-detection on but no `fromVersion`. -/
def autoDetectConfig : MigrationConfig :=
  { enabled := some true
    autoDetect := some true
    fromVersion := none
    backupEnabled := none
    workers := none
    skipPluginMigration := none
    marketplaceUrl := none }

/-- Migration block requesting a skip of the plugin migration. -/
def skipConfig : MigrationConfig :=
  { sampleMigrationConfig with skipPluginMigration := some true }

/-- Migration block that is explicitly disabled. -/
def disabledConfig : MigrationConfig :=
  { sampleMigrationConfig with enabled := some false }

/-- Migration block agreeing with `sampleMigrationConfig` on `enabled`,
`fromVersion` and `skipPluginMigration` but differing on every other
field. -/
def variantConfig : MigrationConfig :=
  { enabled := some true
    autoDetect := some true
    fromVersion := some "1.0.0"
    backupEnabled := some true
    workers := none
    skipPluginMigration := some false
    marketplaceUrl := some "https://example.com/marketplace" }

/-- C1: with `enabled = true`, a non-empty `fromVersion` and
`skipPluginMigration = false`, the gate returns true and the constructor
instantiates exactly the 4 stage jobs in order extract, install,
db-upgrade, data-migration, each with an explicit dependency edge on its
predecessor's construct id. -/
theorem c1_gate_true_four_stages_ordered
    (props : DifyMigrationProps) (mc : MigrationConfig) (now : Nat) (nowIso : String)
    (hmc : props.config.dify.migration = some mc)
    (hen : mc.enabled = some true)
    (hfv : ∃ s, mc.fromVersion = some s ∧ s ≠ "")
    (hskip : mc.skipPluginMigration = some false) :
    shouldRunMigration props = true ∧
    (difyMigrationConstruct props now nowIso).jobs =
      [createExtractPluginsJob props now, createInstallPluginsJob props now,
       createDbUpgradeJob props now, createDataMigrationJob props now] ∧
    (createInstallPluginsJob props now).dependsOn =
      [(createExtractPluginsJob props now).constructId] ∧
    (createDbUpgradeJob props now).dependsOn =
      [(createInstallPluginsJob props now).constructId] ∧
    (createDataMigrationJob props now).dependsOn =
      [(createDbUpgradeJob props now).constructId] ∧
    (createExtractPluginsJob props now).step = "extract-plugins" ∧
    (createInstallPluginsJob props now).step = "install-plugins" ∧
    (createDbUpgradeJob props now).step = "db-upgrade" ∧
    (createDataMigrationJob props now).step = "data-migration" := by
  obtain ⟨s, hs, hne⟩ := hfv
  have hgate : shouldRunMigration props = true := by
    simp [shouldRunMigration, hmc, hen, hskip, hs, jsTruthyStr, hne]
  refine ⟨hgate, ?_, rfl, rfl, rfl, rfl, rfl, rfl, rfl⟩
  simp [difyMigrationConstruct, hgate]

/-- C1 witness: the property instantiated at a concrete request. -/
theorem c1_gate_true_four_stages_ordered_witness :
    shouldRunMigration sampleProps = true ∧
    (difyMigrationConstruct sampleProps 0 "TS").jobs =
      [createExtractPluginsJob sampleProps 0, createInstallPluginsJob sampleProps 0,
       createDbUpgradeJob sampleProps 0, createDataMigrationJob sampleProps 0] ∧
    (createInstallPluginsJob sampleProps 0).dependsOn =
      [(createExtractPluginsJob sampleProps 0).constructId] ∧
    (createDbUpgradeJob sampleProps 0).dependsOn =
      [(createInstallPluginsJob sampleProps 0).constructId] ∧
    (createDataMigrationJob sampleProps 0).dependsOn =
      [(createDbUpgradeJob sampleProps 0).constructId] ∧
    (createExtractPluginsJob sampleProps 0).step = "extract-plugins" ∧
    (createInstallPluginsJob sampleProps 0).step = "install-plugins" ∧
    (createDbUpgradeJob sampleProps 0).step = "db-upgrade" ∧
    (createDataMigrationJob sampleProps 0).step = "data-migration" :=
  c1_gate_true_four_stages_ordered sampleProps sampleMigrationConfig 0 "TS"
    rfl rfl ⟨"1.0.0", rfl, by decide⟩ rfl

/-- Soundness of the poll loop: if it fires, the marker is present at the
returned time, and that time is reached from the start time in whole
poll intervals. -/
theorem pollLoop_some_spec (present : Nat → Bool) (interval fuel t0 t : Nat)
    (h : pollLoop present interval fuel t0 = some t) :
    present t = true ∧ ∃ k, t = t0 + interval * k := by
  induction fuel generalizing t0 with
  | zero => simp [pollLoop] at h
  | succ n ih =>
    by_cases hp : present t0
    · simp [pollLoop, hp] at h
      subst h
      exact ⟨hp, 0, by omega⟩
    · simp [pollLoop, hp] at h
      obtain ⟨hpres, k, hk⟩ := ih (t0 + interval) h
      exact ⟨hpres, k + 1, by rw [hk]; ring⟩

/-- If the marker is never written, the poll loop never fires, whatever the
poll budget: the entry procedure loops forever. -/
theorem pollLoop_never (present : Nat → Bool) (interval fuel t0 : Nat)
    (h : ∀ u, present u = false) :
    pollLoop present interval fuel t0 = none := by
  induction fuel generalizing t0 with
  | zero => simp [pollLoop]
  | succ n ih => simp [pollLoop, h, ih]

/-- C2: stages 2-4 gate their bodies behind an init container that polls
the shared store for the previous stage's marker (plugins.jsonl,
install-complete, db-upgrade-complete) every 5 seconds; a body start
implies the marker was present at that poll, and a never-written marker
makes the poll loop run forever instead of failing. -/
theorem c2_entry_polls_prior_marker :
    (∀ props now, (createInstallPluginsJob props now).initWait =
      some { file := "/migration/plugins.jsonl", sleepSeconds := 5 }) ∧
    (∀ props now, (createDbUpgradeJob props now).initWait =
      some { file := "/migration/install-complete", sleepSeconds := 5 }) ∧
    (∀ props now, (createDataMigrationJob props now).initWait =
      some { file := "/migration/db-upgrade-complete", sleepSeconds := 5 }) ∧
    (∀ present fuel t0 t, pollLoop present 5 fuel t0 = some t →
      present t = true ∧ ∃ k, t = t0 + 5 * k) ∧
    (∀ present fuel t0, (∀ u, present u = false) → pollLoop present 5 fuel t0 = none) := by
  refine ⟨fun _ _ => rfl, fun _ _ => rfl, fun _ _ => rfl, ?_, ?_⟩
  · exact fun present fuel t0 t h => pollLoop_some_spec present 5 fuel t0 t h
  · exact fun present fuel t0 h => pollLoop_never present 5 fuel t0 h

/-- C2 witness: a marker appearing at time 10 is seen at time 10 (two
whole intervals after start), and a marker that never appears makes the
loop return nothing. -/
theorem c2_entry_polls_prior_marker_witness :
    ((fun u => decide (10 ≤ u)) 10 = true ∧ ∃ k, 10 = 0 + 5 * k) ∧
    pollLoop (fun _ => false) 5 3 0 = none := by
  constructor
  · exact c2_entry_polls_prior_marker.2.2.2.1 (fun u => decide (10 ≤ u)) 4 0 10 (by decide)
  · exact c2_entry_polls_prior_marker.2.2.2.2 (fun _ => false) 3 0 (fun _ => rfl)

/-- C3: with `enabled = true` but `fromVersion` unset or empty, the gate
returns false, for every `autoDetect` value and every target version
string. -/
theorem c3_no_fromVersion_gate_false
    (props : DifyMigrationProps) (mc : MigrationConfig)
    (hmc : props.config.dify.migration = some mc)
    (hen : mc.enabled = some true)
    (hfv : mc.fromVersion = none ∨ mc.fromVersion = some "") :
    shouldRunMigration props = false := by
  rcases hfv with h | h <;> simp [shouldRunMigration, hmc, hen, h, jsTruthyStr]

/-- C3 witness: auto-detection on, `fromVersion` unset, target 2.0.0 —
the gate still declines. -/
theorem c3_no_fromVersion_gate_false_witness :
    shouldRunMigration (mkProps (some autoDetectConfig) "2.0.0") = false :=
  c3_no_fromVersion_gate_false (mkProps (some autoDetectConfig) "2.0.0") autoDetectConfig
    rfl rfl (Or.inl rfl)

/-- C4: with `enabled = true`, a non-empty `fromVersion` and
`skipPluginMigration = true`, the gate returns false and the constructor
instantiates nothing at all — the whole pipeline is skipped, not only
the plugin stages. -/
theorem c4_skip_flag_skips_entire_pipeline
    (props : DifyMigrationProps) (mc : MigrationConfig) (now : Nat) (nowIso : String)
    (hmc : props.config.dify.migration = some mc)
    (hen : mc.enabled = some true)
    (hfv : ∃ s, mc.fromVersion = some s ∧ s ≠ "")
    (hskip : mc.skipPluginMigration = some true) :
    shouldRunMigration props = false ∧
    difyMigrationConstruct props now nowIso =
      { pvc := none, statusRecord := none, jobs := [] } := by
  obtain ⟨s, hs, hne⟩ := hfv
  have hgate : shouldRunMigration props = false := by
    simp [shouldRunMigration, hmc, hen, hs, hskip, jsTruthyStr, hne]
  exact ⟨hgate, by simp [difyMigrationConstruct, hgate]⟩

/-- C4 witness: the skip flag on a concrete request yields zero stages. -/
theorem c4_skip_flag_skips_entire_pipeline_witness :
    shouldRunMigration (mkProps (some skipConfig) "1.4.2") = false ∧
    difyMigrationConstruct (mkProps (some skipConfig) "1.4.2") 0 "TS" =
      { pvc := none, statusRecord := none, jobs := [] } :=
  c4_skip_flag_skips_entire_pipeline (mkProps (some skipConfig) "1.4.2") skipConfig 0 "TS"
    rfl rfl ⟨"1.0.0", rfl, by decide⟩ rfl

/-- C5: whenever the gate declines — in particular whenever
`migration?.enabled` is not true — the constructor provisions no PVC, no
status ConfigMap and no job. -/
theorem c5_gate_false_provisions_nothing :
    (∀ props now nowIso, shouldRunMigration props = false →
      difyMigrationConstruct props now nowIso =
        { pvc := none, statusRecord := none, jobs := [] }) ∧
    (∀ props, migEnabled props ≠ some true → shouldRunMigration props = false) := by
  constructor
  · intro props now nowIso h
    simp [difyMigrationConstruct, h]
  · intro props h
    have hmb : (props.config.dify.migration.bind MigrationConfig.enabled).getD false = false := by
      unfold migEnabled at h
      cases hmb : props.config.dify.migration.bind MigrationConfig.enabled with
      | none => rfl
      | some b =>
        cases b with
        | false => rfl
        | true => rw [hmb] at h; exact absurd rfl h
    simp [shouldRunMigration, hmb]

/-- C5 witness: a disabled request produces the empty resource set. -/
theorem c5_gate_false_provisions_nothing_witness :
    shouldRunMigration (mkProps (some disabledConfig) "1.4.2") = false ∧
    difyMigrationConstruct (mkProps (some disabledConfig) "1.4.2") 0 "TS" =
      { pvc := none, statusRecord := none, jobs := [] } := by
  constructor
  · exact c5_gate_false_provisions_nothing.2 (mkProps (some disabledConfig) "1.4.2") (by decide)
  · exact c5_gate_false_provisions_nothing.1 (mkProps (some disabledConfig) "1.4.2") 0 "TS"
      (by decide)

/-- Attempt-count bound of the retry runner: at most `made + fuel` attempts
are on the books after running with `fuel` attempts left. -/
theorem runWithRetryAux_fst_le (body : Nat → Bool) (fuel made : Nat) :
    (runWithRetryAux body fuel made).1 ≤ made + fuel := by
  induction fuel generalizing made with
  | zero => simp [runWithRetryAux]
  | succ n ih =>
    by_cases h : body made
    · simp [runWithRetryAux, h]
    · simp [runWithRetryAux, h]
      have := ih (made + 1)
      omega

/-- A body that always fails consumes the whole attempt budget and ends
unsuccessful. -/
theorem runWithRetryAux_always_fails (body : Nat → Bool) (fuel made : Nat)
    (h : ∀ n, body n = false) :
    runWithRetryAux body fuel made = (made + fuel, false) := by
  induction fuel generalizing made with
  | zero => simp [runWithRetryAux]
  | succ n ih =>
    simp [runWithRetryAux, h, ih]
    omega

/-- C6: every one of the four stage jobs declares `backoffLimit = 3`, and
under the substrate's bounded-restart semantics (modelled from the spec) a
stage body makes at most `retryLimit + 1` attempts; an always-failing body
makes exactly `3 + 1 = 4` attempts and is then terminal-failed. -/
theorem c6_retry_bound :
    (∀ props now,
      (createExtractPluginsJob props now).backoffLimit = 3 ∧
      (createInstallPluginsJob props now).backoffLimit = 3 ∧
      (createDbUpgradeJob props now).backoffLimit = 3 ∧
      (createDataMigrationJob props now).backoffLimit = 3) ∧
    (∀ body retryLimit, (runWithRetry body retryLimit).1 ≤ retryLimit + 1) ∧
    (∀ body : Nat → Bool, (∀ n, body n = false) →
      runWithRetry body 3 = (3 + 1, false)) := by
  refine ⟨fun _ _ => ⟨rfl, rfl, rfl, rfl⟩, ?_, ?_⟩
  · intro body retryLimit
    have := runWithRetryAux_fst_le body (retryLimit + 1) 0
    simpa [runWithRetry] using this
  · intro body h
    simp [runWithRetry, runWithRetryAux_always_fails body 4 0 h]

/-- C6 witness: the always-failing body, run against the declared limit of
the extract job, stops terminal-failed after exactly 4 attempts. -/
theorem c6_retry_bound_witness :
    runWithRetry (fun _ => false) ((createExtractPluginsJob sampleProps 0).backoffLimit) =
      (3 + 1, false) := by
  have h := c6_retry_bound.2.2 (fun _ => false) (fun _ => rfl)
  have hb : (createExtractPluginsJob sampleProps 0).backoffLimit = 3 :=
    (c6_retry_bound.1 sampleProps 0).1
  rw [hb]
  exact h

/-- C7 counterexample: the SchemaUpgrade stage of the chain (the
db-upgrade job) carries no `activeDeadlineSeconds` at all, refuting the
claim that it carries a 600-second execution deadline. -/
theorem c7_schemaUpgrade_deadline_counterexample :
    ¬ ((createDbUpgradeJob sampleProps 0).activeDeadlineSeconds = some 600) := by
  decide

/-- C7 amended: none of the four chain stages carries an execution
deadline; the 600-second `activeDeadlineSeconds` belongs to the separate
standalone job of `DatabaseMigrationConstruct`, which is not part of the
four-stage chain. -/
theorem c7_amended_no_stage_deadline
    (props : DifyMigrationProps) (dprops : DatabaseMigrationProps) (now : Nat) :
    (createExtractPluginsJob props now).activeDeadlineSeconds = none ∧
    (createInstallPluginsJob props now).activeDeadlineSeconds = none ∧
    (createDbUpgradeJob props now).activeDeadlineSeconds = none ∧
    (createDataMigrationJob props now).activeDeadlineSeconds = none ∧
    (databaseMigrationJob dprops now).activeDeadlineSeconds = some 600 :=
  ⟨rfl, rfl, rfl, rfl, rfl⟩

/-- C8: on an accepted request the status ConfigMap is created exactly
once, with status `pending`, the request's `fromVersion` (defaulted to
`unknown`), the deployed version, and the instantiation timestamp; no
stage body writes to the status record — every body write targets a file
of the shared store, and the DataMigrate completion note in particular
goes to the store file `/migration/status.txt`. -/
theorem c8_status_record_write_once
    (props : DifyMigrationProps) (mc : MigrationConfig) (now : Nat) (nowIso : String)
    (hmc : props.config.dify.migration = some mc)
    (hen : mc.enabled = some true)
    (hfv : ∃ s, mc.fromVersion = some s ∧ s ≠ "")
    (hskip : mc.skipPluginMigration = some false) :
    (difyMigrationConstruct props now nowIso).statusRecord =
      some { status := "pending"
             fromVersion := jsOrStr mc.fromVersion "unknown"
             toVersion := props.difyVersion
             timestamp := nowIso } ∧
    (∀ j ∈ (difyMigrationConstruct props now nowIso).jobs,
      ∀ w ∈ j.bodyWrites, ∃ p, w = WriteTarget.storeFile p) ∧
    WriteTarget.storeFile "/migration/status.txt" ∈
      (createDataMigrationJob props now).bodyWrites := by
  obtain ⟨s, hs, hne⟩ := hfv
  have hgate : shouldRunMigration props = true := by
    simp [shouldRunMigration, hmc, hen, hskip, hs, jsTruthyStr, hne]
  refine ⟨?_, ?_, ?_⟩
  · simp [difyMigrationConstruct, hgate, createMigrationConfigMap, hmc]
  · intro j hj w hw
    simp [difyMigrationConstruct, hgate] at hj
    rcases hj with rfl | rfl | rfl | rfl
    · simp [createExtractPluginsJob] at hw
      exact ⟨_, hw⟩
    · simp [createInstallPluginsJob] at hw
      exact ⟨_, hw⟩
    · simp [createDbUpgradeJob] at hw
      exact ⟨_, hw⟩
    · simp [createDataMigrationJob] at hw
      rcases hw with rfl | rfl
      · exact ⟨_, rfl⟩
      · exact ⟨_, rfl⟩
  · simp [createDataMigrationJob]

/-- C8 witness: the property at a concrete accepted request. -/
theorem c8_status_record_write_once_witness :
    (difyMigrationConstruct sampleProps 0 "TS").statusRecord =
      some { status := "pending"
             fromVersion := jsOrStr sampleMigrationConfig.fromVersion "unknown"
             toVersion := sampleProps.difyVersion
             timestamp := "TS" } ∧
    (∀ j ∈ (difyMigrationConstruct sampleProps 0 "TS").jobs,
      ∀ w ∈ j.bodyWrites, ∃ p, w = WriteTarget.storeFile p) ∧
    WriteTarget.storeFile "/migration/status.txt" ∈
      (createDataMigrationJob sampleProps 0).bodyWrites :=
  c8_status_record_write_once sampleProps sampleMigrationConfig 0 "TS"
    rfl rfl ⟨"1.0.0", rfl, by decide⟩ rfl

/-- C9: the gate is a total pure function of the request — it returns a
boolean on every input, including target version strings that are empty,
have no dots, or have empty components (whose `parseInt` is `NaN`); the
parse failure is a value, never an error, and does not block the
decision. -/
theorem c9_gate_total_pure :
    (∀ props, shouldRunMigration props = false ∨ shouldRunMigration props = true) ∧
    shouldRunMigration (mkProps (some sampleMigrationConfig) "not-a-version") = true ∧
    shouldRunMigration (mkProps (some sampleMigrationConfig) "") = true ∧
    shouldRunMigration (mkProps (some sampleMigrationConfig) "1..") = true ∧
    parseIntJS (some "not-a-version") = none ∧
    parseIntJS (some "") = none := by
  refine ⟨?_, by decide, by decide, by decide, rfl, rfl⟩
  intro props
  cases h : shouldRunMigration props with
  | false => exact Or.inl rfl
  | true => exact Or.inr rfl

/-- The gate's value, written over the three request projections it
observes; equal by unfolding since the parsed version numbers are bound
but never used. -/
theorem shouldRunMigration_eq_projections (props : DifyMigrationProps) :
    shouldRunMigration props =
      (if !((migEnabled props).getD false) then false
       else if jsTruthyStr (migFromVersion props) then
         (if (migSkip props).getD false then false else true)
       else false) := rfl

/-- C10: the gate's decision depends only on `enabled`, `fromVersion` and
`skipPluginMigration` — two requests agreeing on those three projections
decide alike, whatever their `autoDetect`, `backupEnabled`, `workers`,
`marketplaceUrl` or target version — and a request with no migration
block at all is decided false. -/
theorem c10_gate_depends_only_on_three_fields :
    (∀ p1 p2 : DifyMigrationProps,
      migEnabled p1 = migEnabled p2 →
      migFromVersion p1 = migFromVersion p2 →
      migSkip p1 = migSkip p2 →
      shouldRunMigration p1 = shouldRunMigration p2) ∧
    (∀ props, props.config.dify.migration = none → shouldRunMigration props = false) := by
  constructor
  · intro p1 p2 he hf hs
    rw [shouldRunMigration_eq_projections p1, shouldRunMigration_eq_projections p2, he, hf, hs]
  · intro props h
    rw [shouldRunMigration_eq_projections]
    simp [migEnabled, h]

/-- C10 witness: two concrete requests differing in `autoDetect`,
`backupEnabled`, `workers`, `marketplaceUrl` and the target version but
agreeing on the three observed fields are decided alike, and the request
with no migration block is decided false. -/
theorem c10_gate_depends_only_on_three_fields_witness :
    shouldRunMigration (mkProps (some sampleMigrationConfig) "1.4.2") =
      shouldRunMigration (mkProps (some variantConfig) "9.9.9") ∧
    shouldRunMigration (mkProps none "1.4.2") = false := by
  constructor
  · exact c10_gate_depends_only_on_three_fields.1
      (mkProps (some sampleMigrationConfig) "1.4.2") (mkProps (some variantConfig) "9.9.9")
      rfl rfl rfl
  · exact c10_gate_depends_only_on_three_fields.2 (mkProps none "1.4.2") rfl
